import Mathlib

/-!
Shallow embedding of the collision/ranking core of the `sorteo` particle-arena
simulation (`src/utils/helpers.py`, driven by `src/simulation.py`).

Real-valued quantities (Python floats) are modelled as rationals; the Euclidean
norm `np.linalg.norm`, which is irrational in general, is threaded through the
embedding as an explicit function parameter `normF` (resp. as explicit `dist`,
`force_a`, `force_b` arguments of the narrow-phase resolver), so every
definition stays executable and the algebra of the source is kept verbatim.

The `Particle` class itself lives in `particle.py`, which is not among the
repository sources here; its state and its `damage` method are modelled from
the specification (see the doc comments below).
-/

namespace Sorteo

/-- Modelled from the spec: the state of one agent of the `Particle` class of
`particle.py`, which is absent from the sources (only its callers in
`src/utils/helpers.py` and `src/simulation.py` are present).  Spec section 3:
stable `id`, 2D `position` and `velocity`, `mass`, real-valued `hp`, boolean
`alive`.  Fields irrelevant to the verified claims (image, per-agent radius
copy, speed/acceleration caps, collision timestamp) are omitted. -/
structure Particle where
  id : ℕ
  pos : ℚ × ℚ
  vel : ℚ × ℚ
  hp : ℚ
  alive : Bool
  mass : ℚ
deriving DecidableEq, Repr

/-- Modelled from the spec: the `Particle.damage` method of the missing
`particle.py`.  Spec section 3: "hp: real-valued health, ... monotonically
non-increasing while alive" and "alive: boolean; transitions true→false exactly
once, when hp reaches zero or below; never false→true"; spec section 4.3:
"hp <= 0 ... triggers alive = false". -/
def Particle.damage (p : Particle) (d : ℚ) : Particle :=
  let hp2 := p.hp - d
  { p with hp := hp2, alive := if hp2 ≤ 0 then false else p.alive }

/-- One row of the per-collision CSV log written by `create_log`
(`src/utils/helpers.py` lines 168-171): `{Particle, Opponent, Frame, Killed}`. -/
structure LogEntry where
  particle : ℕ
  opponent : ℕ
  frame : ℕ
  killed : Bool
deriving DecidableEq, Repr

/-- The global mutable ranking / kill-feed pair of `src/utils/helpers.py`
lines 149-150.  Kill-feed entries are `(killer id, victim id)`; the wall-clock
`time.time()` third component of the source tuple is dropped as it never
influences control flow. -/
structure LogState where
  ranking : List ℕ
  kill_feed : List (ℕ × ℕ)
deriving DecidableEq, Repr

/-- Embedding of `create_log` (`src/utils/helpers.py` lines 152-176): records
newly dead particles in the ranking and the kill feed (popping the oldest feed
entry when the feed length exceeds 1) and returns the two CSV rows appended to
the collision log.  Python's identity-based `particle_a not in ranking` test is
modelled by id membership, faithful because ids are unique (spec section 3). -/
def create_log (a b : Particle) (frame : ℕ) (ls : LogState) : LogState × List LogEntry :=
  let killed_a := !a.alive
  let killed_b := !b.alive
  let ls1 :=
    if killed_a ∧ a.id ∉ ls.ranking then
      ⟨ls.ranking ++ [a.id], ls.kill_feed ++ [(b.id, a.id)]⟩
    else ls
  let ls2 :=
    if killed_b ∧ b.id ∉ ls1.ranking then
      ⟨ls1.ranking ++ [b.id], ls1.kill_feed ++ [(a.id, b.id)]⟩
    else ls1
  let ls3 :=
    if 1 < ls2.kill_feed.length then ⟨ls2.ranking, ls2.kill_feed.tail⟩ else ls2
  (ls3, [⟨a.id, b.id, frame, killed_a⟩, ⟨b.id, a.id, frame, killed_b⟩])

/-- Ranking effect of `display_winner` (`src/utils/helpers.py` lines 246-251):
the first alive particle is appended to the ranking unless already present.
Rendering side effects are irrelevant and omitted; when no particle is alive
the source raises `StopIteration` before touching the ranking, modelled as
leaving the ranking unchanged. -/
def display_winner (particles : List Particle) (ranking : List ℕ) : List ℕ :=
  match particles.find? (fun p => p.alive) with
  | some w => if w.id ∈ ranking then ranking else ranking ++ [w.id]
  | none => ranking

/-- One call against the global ranking / kill-feed state: either a
`create_log` call issued by `check_collisions` or a `display_winner` call
issued at simulation end. -/
inductive LogOp where
  | collide (a b : Particle) (frame : ℕ)
  | winner (particles : List Particle)

/-- State effect of one `LogOp` on the global ranking / kill feed. -/
def applyLogOp (s : LogState) : LogOp → LogState
  | .collide a b frame => (create_log a b frame s).1
  | .winner ps => { s with ranking := display_winner ps s.ranking }

/-- Folds a sequence of ranking-touching calls over the global state. -/
def runLogOps (ops : List LogOp) (s : LogState) : LogState :=
  ops.foldl applyLogOp s

/-- The 1D elastic-collision update for the first body
(`src/utils/helpers.py` line 236). -/
def new_v1 (m1 m2 v1 v2 : ℚ) : ℚ :=
  (v1 * (m1 - m2) + 2 * m2 * v2) / (m1 + m2)

/-- The 1D elastic-collision update for the second body
(`src/utils/helpers.py` line 237). -/
def new_v2 (m1 m2 v1 v2 : ℚ) : ℚ :=
  (v2 * (m2 - m1) + 2 * m1 * v1) / (m1 + m2)

/-- Contact normal used by `check_collisions` (`src/utils/helpers.py` line
212): `dist_pos / dist` componentwise when `dist != 0`, else the fixed
fallback `(1, 0)`. -/
def collision_direction (dist_pos : ℚ × ℚ) (dist : ℚ) : ℚ × ℚ :=
  if dist ≠ 0 then (dist_pos.1 / dist, dist_pos.2 / dist) else (1, 0)

/-- Dot product of 2D vectors (`np.dot` at `src/utils/helpers.py` lines
230-231). -/
def vdot (u v : ℚ × ℚ) : ℚ :=
  u.1 * v.1 + u.2 * v.2

/-- Result of resolving one candidate pair whose distance test succeeded:
the two mutated particles, the updated global ranking / kill-feed state, and
the CSV rows appended (empty when `create_log` was not called). -/
structure ResolveResult where
  a : Particle
  b : Particle
  log : LogState
  entries : List LogEntry
deriving DecidableEq, Repr

/-- Body of the `dist < radius * 2` branch of `check_collisions`
(`src/utils/helpers.py` lines 211-244): separation push-apart, capped damage,
1D elastic momentum exchange along the contact normal, and a `create_log` call
when at least one participant ended up dead.  The scalars computed by
`np.linalg.norm` in the source are passed in explicitly: `dist` stands for
`np.linalg.norm(a.pos - b.pos)` (line 209) and `force_a`, `force_b` for
`np.linalg.norm(a.vel)*2`, `np.linalg.norm(b.vel)*2` (lines 222-223; the
velocities they are computed from are unchanged until the momentum step). -/
def resolve_collision (radius : ℚ) (frame : ℕ) (a b : Particle)
    (dist force_a force_b : ℚ) (ls : LogState) : ResolveResult :=
  let dist_pos := a.pos - b.pos
  let direction := collision_direction dist_pos dist
  let repel_distance := (0.1 : ℚ) * radius
  let a1 := { a with pos := a.pos + repel_distance • direction }
  let b1 := { b with pos := b.pos - repel_distance • direction }
  let min_hp := min a1.hp b1.hp
  let a2 := a1.damage (min force_b min_hp)
  let b2 := b1.damage (min force_a min_hp)
  let v1 := vdot a2.vel direction
  let v2 := vdot b2.vel direction
  let m1 := a2.mass
  let m2 := b2.mass
  let nv1 := new_v1 m1 m2 v1 v2
  let nv2 := new_v2 m1 m2 v1 v2
  let a3 := { a2 with vel := a2.vel + (nv1 - v1) • direction }
  let b3 := { b2 with vel := b2.vel + (nv2 - v2) • direction }
  let cl :=
    if a3.alive = false ∨ b3.alive = false then create_log a3 b3 frame ls
    else (ls, [])
  ⟨a3, b3, cl.1, cl.2⟩

/-- Embedding of `get_cell_coords` (`src/utils/helpers.py` lines 179-180):
`int(pos // cell_size)` componentwise, i.e. the floor of the quotient (Python
float floor-division). -/
def get_cell_coords (pos : ℚ × ℚ) (cell_size : ℚ) : ℤ × ℤ :=
  (⌊pos.1 / cell_size⌋, ⌊pos.2 / cell_size⌋)

/-- The nine `(dx, dy)` offsets of the 3×3 neighborhood scan, in the order the
nested `for dx ... for dy ...` loops of `src/utils/helpers.py` lines 199-200
visit them. -/
def cellOffsets : List (ℤ × ℤ) :=
  [(-1, -1), (-1, 0), (-1, 1), (0, -1), (0, 0), (0, 1), (1, -1), (1, 0), (1, 1)]

/-- The neighbor cells `(ni, nj)` actually examined for home cell `(i, j)`:
the 3×3 offsets filtered by the grid-bounds test of `src/utils/helpers.py`
lines 201-202. -/
def scannedCells (i j : ℤ) (grid_width grid_height : ℕ) : List (ℤ × ℤ) :=
  cellOffsets.filterMap (fun d =>
    let ni := i + d.1
    let nj := j + d.2
    if 0 ≤ ni ∧ ni < (grid_width : ℤ) ∧ 0 ≤ nj ∧ nj < (grid_height : ℤ) then
      some (ni, nj)
    else none)

/-- Mutable simulation state threaded through one `check_collisions` pass:
the particle store indexed by roster position (Python mutates the particle
objects through shared references, modelled by indices into `agents`), the
global ranking / kill-feed state, and the CSV rows emitted so far. -/
structure SimState where
  agents : ℕ → Particle
  log : LogState
  entries : List LogEntry

/-- Narrow-phase step for one candidate pair (`src/utils/helpers.py` lines
208-244): recompute the distance from the current positions; when it is below
`radius * 2`, resolve the collision and write both mutated particles back.
`normF` stands for `np.linalg.norm`. -/
def pairStep (normF : ℚ × ℚ → ℚ) (radius : ℚ) (frame : ℕ)
    (aIdx bIdx : ℕ) (s : SimState) : SimState :=
  let a := s.agents aIdx
  let b := s.agents bIdx
  let dist := normF (a.pos - b.pos)
  if dist < radius * 2 then
    let r := resolve_collision radius frame a b dist
      (normF a.vel * 2) (normF b.vel * 2) s.log
    { agents := Function.update (Function.update s.agents aIdx r.a) bIdx r.b,
      log := r.log,
      entries := s.entries ++ r.entries }
  else s

/-- Innermost loop of `check_collisions` (`src/utils/helpers.py` lines
203-244): iterate over the particles `b` of one neighbor cell; `b is a` or a
dead `b` is skipped (`continue`), a dead `a` aborts the cell (`break`),
otherwise the pair is handed to the narrow phase. -/
def processBs (normF : ℚ × ℚ → ℚ) (radius : ℚ) (frame : ℕ) (aIdx : ℕ) :
    List ℕ → SimState → SimState
  | [], s => s
  | bIdx :: rest, s =>
    if bIdx = aIdx ∨ (s.agents bIdx).alive = false then
      processBs normF radius frame aIdx rest s
    else if (s.agents aIdx).alive = false then s
    else processBs normF radius frame aIdx rest (pairStep normF radius frame aIdx bIdx s)

/-- Loop over the (bounds-filtered) 3×3 neighbor cells of one home particle
(`src/utils/helpers.py` lines 199-202). -/
def processNeighbors (normF : ℚ × ℚ → ℚ) (radius : ℚ) (frame : ℕ)
    (grid : ℤ × ℤ → List ℕ) (aIdx : ℕ) :
    List (ℤ × ℤ) → SimState → SimState
  | [], s => s
  | c :: cs, s =>
    processNeighbors normF radius frame grid aIdx cs
      (processBs normF radius frame aIdx (grid c) s)

/-- Loop over the particles of one home cell (`src/utils/helpers.py` line
198). -/
def processAs (normF : ℚ × ℚ → ℚ) (radius : ℚ) (frame : ℕ)
    (grid : ℤ × ℤ → List ℕ) (grid_width grid_height : ℕ) (home : ℤ × ℤ) :
    List ℕ → SimState → SimState
  | [], s => s
  | aIdx :: rest, s =>
    processAs normF radius frame grid grid_width grid_height home rest
      (processNeighbors normF radius frame grid aIdx
        (scannedCells home.1 home.2 grid_width grid_height) s)

/-- Outer loop over all grid cells (`src/utils/helpers.py` lines 195-197). -/
def processCells (normF : ℚ × ℚ → ℚ) (radius : ℚ) (frame : ℕ)
    (grid : ℤ × ℤ → List ℕ) (grid_width grid_height : ℕ) :
    List (ℤ × ℤ) → SimState → SimState
  | [], s => s
  | c :: cs, s =>
    processCells normF radius frame grid grid_width grid_height cs
      (processAs normF radius frame grid grid_width grid_height c (grid c) s)

/-- The cells `(i, j)` in the order of the two outer `for` loops of
`src/utils/helpers.py` lines 195-196. -/
def cellList (grid_width grid_height : ℕ) : List (ℤ × ℤ) :=
  (List.range grid_width).foldr
    (fun i acc => (List.range grid_height).map (fun j => ((i : ℤ), (j : ℤ))) ++ acc) []

/-- Grid construction of `check_collisions` (`src/utils/helpers.py` lines
185-192): every alive particle is appended to the bucket of the cell its
position falls in.  The Python list-of-lists is modelled as a finite-support
map from cell coordinates to index lists, faithful whenever all alive
particles lie inside the grid (out-of-range coordinates make the source
index-error or wrap around, which the simulation never exercises). -/
def buildGrid (cell_size : ℚ) (agents : ℕ → Particle) (idxs : List ℕ) :
    ℤ × ℤ → List ℕ :=
  idxs.foldl
    (fun g i =>
      if (agents i).alive = true then
        fun c => if c = get_cell_coords (agents i).pos cell_size then g c ++ [i] else g c
      else g)
    (fun _ => [])

/-- Embedding of `check_collisions` (`src/utils/helpers.py` lines 183-244):
build the grid from the alive particles, then run the four nested loops.
`idxs` enumerates the `particles` list by index; `normF` stands for
`np.linalg.norm`. -/
def check_collisions (normF : ℚ × ℚ → ℚ) (radius cell_size : ℚ)
    (grid_width grid_height : ℕ) (idxs : List ℕ) (frame : ℕ) (s : SimState) : SimState :=
  processCells normF radius frame (buildGrid cell_size s.agents idxs)
    grid_width grid_height (cellList grid_width grid_height) s

/-- Descending list `[s, s-1, ..., s-k+1]` of length `k`: the value sequence
of Python's `range(max_radius, min_radius - 1, -1)` at
`src/utils/helpers.py` line 29 (with `s = max_radius`,
`k = max_radius + 1 - min_radius`). -/
def countdown : ℕ → ℕ → List ℕ
  | _, 0 => []
  | s, k + 1 => s :: countdown (s - 1) k

/-- Loop body of `get_dynamic_radius` (`src/utils/helpers.py` lines 29-35):
return the first candidate radius whose grid capacity
`(width // (4r)) * (height // (4r))` reaches the particle count, else the
fallback `best`. -/
def get_dynamic_radius_loop (num_particles width height : ℕ) :
    List ℕ → ℕ → ℕ
  | [], best => best
  | r :: rs, best =>
    if num_particles ≤ width / (4 * r) * (height / (4 * r)) then r
    else get_dynamic_radius_loop num_particles width height rs best

/-- Embedding of `get_dynamic_radius` (`src/utils/helpers.py` lines 25-41),
the spec's `compute_radius`.  The source takes the particle list and uses only
its length, modelled by `num_particles`; the optional write-back of the result
into every particle's `radius` field (`change_radius=True`) does not affect
the returned value and is omitted. -/
def get_dynamic_radius (num_particles width height min_radius max_radius : ℕ) : ℕ :=
  get_dynamic_radius_loop num_particles width height
    (countdown max_radius (max_radius + 1 - min_radius)) min_radius

/-! ## Helper lemmas -/

theorem mem_countdown : ∀ (k s x : ℕ), x ∈ countdown s k → x ≤ s ∧ s < x + k := by
  intro k
  induction k with
  | zero => intro s x h; simp [countdown] at h
  | succ k ih =>
    intro s x h
    simp only [countdown, List.mem_cons] at h
    rcases h with rfl | h
    · omega
    · have h2 := ih (s - 1) x h
      omega

theorem countdown_pairwise : ∀ (k s : ℕ),
    List.Pairwise (fun x y => y ≤ x) (countdown s k) := by
  intro k
  induction k with
  | zero => intro s; simp [countdown]
  | succ k ih =>
    intro s
    refine List.Pairwise.cons ?_ (ih (s - 1))
    intro x hx
    have := mem_countdown k (s - 1) x hx
    omega

theorem loop_result_mem (num w h : ℕ) : ∀ (l : List ℕ) (best : ℕ),
    get_dynamic_radius_loop num w h l best = best ∨
      get_dynamic_radius_loop num w h l best ∈ l := by
  intro l
  induction l with
  | nil => intro best; left; rfl
  | cons r rs ih =>
    intro best
    by_cases hc : num ≤ w / (4 * r) * (h / (4 * r))
    · right
      simp [get_dynamic_radius_loop, hc]
    · rcases ih best with h1 | h1
      · left
        simpa [get_dynamic_radius_loop, hc] using h1
      · right
        simp only [get_dynamic_radius_loop, hc, if_false, List.mem_cons]
        exact Or.inr h1

theorem loop_anti (num1 num2 w h : ℕ) (hn : num1 ≤ num2) : ∀ (l : List ℕ) (best : ℕ),
    List.Pairwise (fun x y => y ≤ x) l → (∀ x ∈ l, best ≤ x) →
    get_dynamic_radius_loop num2 w h l best ≤ get_dynamic_radius_loop num1 w h l best := by
  intro l
  induction l with
  | nil => intro best _ _; exact le_rfl
  | cons r rs ih =>
    intro best hp hb
    by_cases h2 : num2 ≤ w / (4 * r) * (h / (4 * r))
    · have h1 : num1 ≤ w / (4 * r) * (h / (4 * r)) := le_trans hn h2
      simp [get_dynamic_radius_loop, h1, h2]
    · by_cases h1 : num1 ≤ w / (4 * r) * (h / (4 * r))
      · have hle : get_dynamic_radius_loop num2 w h rs best ≤ r := by
          rcases loop_result_mem num2 w h rs best with he | he
          · rw [he]; exact hb r (List.mem_cons_self r rs)
          · exact (List.pairwise_cons.mp hp).1 _ he
        simpa [get_dynamic_radius_loop, h1, h2] using hle
      · have := ih best (List.pairwise_cons.mp hp).2
          (fun x hx => hb x (List.mem_cons_of_mem _ hx))
        simpa [get_dynamic_radius_loop, h1, h2] using this

/-! ## Claim theorems -/

/-- C3: for all positive masses and all normal velocity components, the
elastic-collision update of `check_collisions` preserves momentum along the
contact normal exactly in rational arithmetic:
`m1*new_v1 + m2*new_v2 = m1*v1 + m2*v2`. -/
theorem momentum_conserved (m1 m2 v1 v2 : ℚ) (h1 : 0 < m1) (h2 : 0 < m2) :
    m1 * new_v1 m1 m2 v1 v2 + m2 * new_v2 m1 m2 v1 v2 = m1 * v1 + m2 * v2 := by
  have h : m1 + m2 ≠ 0 := by positivity
  unfold new_v1 new_v2
  field_simp
  ring

/-- Witness for C3 at the spec's head-on equal-mass scenario
(`m1 = m2 = 1`, `v1 = 5`, `v2 = -5`). -/
theorem momentum_conserved_witness :
    (0 : ℚ) < 1 ∧ (0 : ℚ) < 1 ∧
      1 * new_v1 1 1 5 (-5) + 1 * new_v2 1 1 5 (-5) = 1 * 5 + 1 * (-5) :=
  ⟨by norm_num, by norm_num,
    momentum_conserved 1 1 5 (-5) (by norm_num) (by norm_num)⟩

/-- C4: assuming `min_radius <= max_radius`, `get_dynamic_radius` (the spec's
`compute_radius`) returns a value in `[min_radius, max_radius]`, and for fixed
arena width/height and radius bounds the result is monotonically non-increasing
in the number of particles passed in. -/
theorem get_dynamic_radius_range_antitone
    (width height min_radius max_radius : ℕ)
    (hmm : min_radius ≤ max_radius) :
    (∀ num : ℕ,
      min_radius ≤ get_dynamic_radius num width height min_radius max_radius ∧
      get_dynamic_radius num width height min_radius max_radius ≤ max_radius) ∧
    (∀ num1 num2 : ℕ, num1 ≤ num2 →
      get_dynamic_radius num2 width height min_radius max_radius ≤
        get_dynamic_radius num1 width height min_radius max_radius) := by
  constructor
  · intro num
    unfold get_dynamic_radius
    rcases loop_result_mem num width height
        (countdown max_radius (max_radius + 1 - min_radius)) min_radius with he | he
    · rw [he]; exact ⟨le_rfl, hmm⟩
    · have := mem_countdown _ _ _ he
      omega
  · intro num1 num2 h12
    unfold get_dynamic_radius
    apply loop_anti _ _ _ _ h12
    · exact countdown_pairwise _ _
    · intro x hx
      have := mem_countdown _ _ _ hx
      omega

/-- Witness for C4 at the spec's scenario: arena 800×600 with radius bounds
[10, 40]; includes the range conjunct at 4 particles and the monotonicity
conjunct for 4 ≤ 7 particles. -/
theorem get_dynamic_radius_range_antitone_witness :
    (10 : ℕ) ≤ 40 ∧
    (10 ≤ get_dynamic_radius 4 800 600 10 40 ∧
      get_dynamic_radius 4 800 600 10 40 ≤ 40) ∧
    get_dynamic_radius 7 800 600 10 40 ≤ get_dynamic_radius 4 800 600 10 40 :=
  ⟨by norm_num,
    (get_dynamic_radius_range_antitone 800 600 10 40 (by norm_num)).1 4,
    (get_dynamic_radius_range_antitone 800 600 10 40 (by norm_num)).2 4 7 (by norm_num)⟩

/-- C9: for a zero-distance collision the contact normal of
`check_collisions` is the fixed fallback `(1, 0)`; the guarded definition
never divides by the (zero) distance, so the resolution step is total. -/
theorem collision_direction_zero_dist (dist_pos : ℚ × ℚ) (dist : ℚ)
    (h : dist = 0) : collision_direction dist_pos dist = (1, 0) := by
  subst h
  simp [collision_direction]

/-- Witness for C9 at the concrete offset `(3, 4)` with `dist = 0`. -/
theorem collision_direction_zero_dist_witness :
    (0 : ℚ) = 0 ∧ collision_direction (3, 4) 0 = (1, 0) :=
  ⟨rfl, collision_direction_zero_dist (3, 4) 0 rfl⟩

/-- Health and aliveness of the two particles returned by
`resolve_collision`, read off from the damage step of the source: each agent
loses `min(opponent force, min(a.hp, b.hp))` health and dies exactly when the
result is at most zero (the repel and momentum steps touch only positions and
velocities). -/
theorem resolve_collision_hp_alive (radius : ℚ) (frame : ℕ) (a b : Particle)
    (dist force_a force_b : ℚ) (ls : LogState) :
    (resolve_collision radius frame a b dist force_a force_b ls).a.hp
        = a.hp - min force_b (min a.hp b.hp) ∧
    (resolve_collision radius frame a b dist force_a force_b ls).a.alive
        = (if a.hp - min force_b (min a.hp b.hp) ≤ 0 then false else a.alive) ∧
    (resolve_collision radius frame a b dist force_a force_b ls).b.hp
        = b.hp - min force_a (min a.hp b.hp) ∧
    (resolve_collision radius frame a b dist force_a force_b ls).b.alive
        = (if b.hp - min force_a (min a.hp b.hp) ≤ 0 then false else b.alive) := by
  exact ⟨rfl, rfl, rfl, rfl⟩

/-- C1 counterexample: a resolved collision (`dist = 1 < radius * 2`) between
two particles tied at `hp = 5` in which only one dies.  Particle `a` moves
with velocity `(10, 0)` (force `20 = 2 * norm (10, 0)`), particle `b` is at
rest (force `0`); `a` takes `min(0, 5) = 0` damage and survives while `b`
takes `min(20, 5) = 5` damage and dies, refuting simultaneous tie-death.  The
final conjuncts record that the scalar arguments are the exact Euclidean norms
of the corresponding vectors. -/
theorem tie_death_counterexample :
    ((resolve_collision 1 0 ⟨0, (0, 0), (10, 0), 5, true, 1⟩
        ⟨1, (1, 0), (0, 0), 5, true, 1⟩ 1 20 0 ⟨[], []⟩).a.alive = true ∧
      (resolve_collision 1 0 ⟨0, (0, 0), (10, 0), 5, true, 1⟩
        ⟨1, (1, 0), (0, 0), 5, true, 1⟩ 1 20 0 ⟨[], []⟩).b.alive = false) ∧
    (1 : ℚ) < 1 * 2 ∧
    ((1 : ℚ) ^ 2 = ((0 : ℚ) - 1) ^ 2 + ((0 : ℚ) - 0) ^ 2 ∧ (0 : ℚ) ≤ 1) ∧
    (20 : ℚ) = 2 * 10 ∧ (0 : ℚ) = 2 * 0 := by
  norm_num [resolve_collision, Particle.damage, collision_direction, vdot,
    new_v1, new_v2, create_log]

/-- C1 (amended): for every candidate pair resolved as a collision in which
`a.hp = b.hp` before the hit and each incoming velocity-derived force reaches
the shared health (so both damages are capped at `min_hp`), both particles
become non-alive simultaneously after the hit. -/
theorem tie_death_amended (radius : ℚ) (frame : ℕ) (a b : Particle)
    (dist force_a force_b : ℚ) (ls : LogState)
    (hhp : a.hp = b.hp) (hfa : b.hp ≤ force_a) (hfb : a.hp ≤ force_b) :
    (resolve_collision radius frame a b dist force_a force_b ls).a.alive = false ∧
    (resolve_collision radius frame a b dist force_a force_b ls).b.alive = false := by
  obtain ⟨-, h2, -, h4⟩ :=
    resolve_collision_hp_alive radius frame a b dist force_a force_b ls
  have hfb2 : b.hp ≤ force_b := hhp ▸ hfb
  have e1 : min force_b (min a.hp b.hp) = b.hp := by
    rw [hhp, min_self, min_eq_right hfb2]
  have e2 : min force_a (min a.hp b.hp) = b.hp := by
    rw [hhp, min_self, min_eq_right hfa]
  rw [h2, h4, e1, e2, hhp]
  simp

/-- Witness for the amended C1: both particles enter with `hp = 5` and both
forces equal `20 ≥ 5`; both die. -/
theorem tie_death_amended_witness :
    ((⟨0, (0, 0), (10, 0), 5, true, 1⟩ : Particle).hp
        = (⟨1, (1, 0), (-10, 0), 5, true, 1⟩ : Particle).hp ∧
      (⟨1, (1, 0), (-10, 0), 5, true, 1⟩ : Particle).hp ≤ 20 ∧
      (⟨0, (0, 0), (10, 0), 5, true, 1⟩ : Particle).hp ≤ 20) ∧
    (resolve_collision 1 0 ⟨0, (0, 0), (10, 0), 5, true, 1⟩
        ⟨1, (1, 0), (-10, 0), 5, true, 1⟩ 1 20 20 ⟨[], []⟩).a.alive = false ∧
    (resolve_collision 1 0 ⟨0, (0, 0), (10, 0), 5, true, 1⟩
        ⟨1, (1, 0), (-10, 0), 5, true, 1⟩ 1 20 20 ⟨[], []⟩).b.alive = false :=
  ⟨⟨by norm_num, by norm_num, by norm_num⟩,
    tie_death_amended 1 0 ⟨0, (0, 0), (10, 0), 5, true, 1⟩
      ⟨1, (1, 0), (-10, 0), 5, true, 1⟩ 1 20 20 ⟨[], []⟩
      (by norm_num) (by norm_num) (by norm_num)⟩

/-- C2: in every resolved collision each particle loses at most
`min(a.hp, b.hp)` (taken before the hit) of health, so if both enter with
non-negative hp, both leave with non-negative hp. -/
theorem resolve_collision_hp_nonneg (radius : ℚ) (frame : ℕ) (a b : Particle)
    (dist force_a force_b : ℚ) (ls : LogState)
    (_ha : 0 ≤ a.hp) (_hb : 0 ≤ b.hp) :
    (a.hp - (resolve_collision radius frame a b dist force_a force_b ls).a.hp
        ≤ min a.hp b.hp ∧
      b.hp - (resolve_collision radius frame a b dist force_a force_b ls).b.hp
        ≤ min a.hp b.hp) ∧
    0 ≤ (resolve_collision radius frame a b dist force_a force_b ls).a.hp ∧
    0 ≤ (resolve_collision radius frame a b dist force_a force_b ls).b.hp := by
  obtain ⟨h1, -, h3, -⟩ :=
    resolve_collision_hp_alive radius frame a b dist force_a force_b ls
  rw [h1, h3]
  have k1 : min force_b (min a.hp b.hp) ≤ min a.hp b.hp := min_le_right _ _
  have k2 : min force_a (min a.hp b.hp) ≤ min a.hp b.hp := min_le_right _ _
  have k3 : min a.hp b.hp ≤ a.hp := min_le_left _ _
  have k4 : min a.hp b.hp ≤ b.hp := min_le_right _ _
  constructor
  · constructor <;> linarith
  · constructor <;> linarith

/-- Witness for C2 at a concrete non-lethal collision: both particles enter
with `hp = 10 ≥ 0`. -/
theorem resolve_collision_hp_nonneg_witness :
    ((0 : ℚ) ≤ (10 : ℚ) ∧ (0 : ℚ) ≤ (10 : ℚ)) ∧
    (((⟨0, (0, 0), (1, 0), 10, true, 1⟩ : Particle).hp
        - (resolve_collision 1 0 ⟨0, (0, 0), (1, 0), 10, true, 1⟩
            ⟨1, (1, 0), (0, 0), 10, true, 1⟩ 1 2 0 ⟨[], []⟩).a.hp
        ≤ min (⟨0, (0, 0), (1, 0), 10, true, 1⟩ : Particle).hp
            (⟨1, (1, 0), (0, 0), 10, true, 1⟩ : Particle).hp ∧
      (⟨1, (1, 0), (0, 0), 10, true, 1⟩ : Particle).hp
        - (resolve_collision 1 0 ⟨0, (0, 0), (1, 0), 10, true, 1⟩
            ⟨1, (1, 0), (0, 0), 10, true, 1⟩ 1 2 0 ⟨[], []⟩).b.hp
        ≤ min (⟨0, (0, 0), (1, 0), 10, true, 1⟩ : Particle).hp
            (⟨1, (1, 0), (0, 0), 10, true, 1⟩ : Particle).hp) ∧
    0 ≤ (resolve_collision 1 0 ⟨0, (0, 0), (1, 0), 10, true, 1⟩
          ⟨1, (1, 0), (0, 0), 10, true, 1⟩ 1 2 0 ⟨[], []⟩).a.hp ∧
    0 ≤ (resolve_collision 1 0 ⟨0, (0, 0), (1, 0), 10, true, 1⟩
          ⟨1, (1, 0), (0, 0), 10, true, 1⟩ 1 2 0 ⟨[], []⟩).b.hp) :=
  ⟨⟨by norm_num, by norm_num⟩,
    resolve_collision_hp_nonneg 1 0 ⟨0, (0, 0), (1, 0), 10, true, 1⟩
      ⟨1, (1, 0), (0, 0), 10, true, 1⟩ 1 2 0 ⟨[], []⟩ (by norm_num) (by norm_num)⟩

/-- C8 counterexample: a resolved collision (`dist = 1 < radius * 2`) in
which both participants survive — `a` (velocity `(1, 0)`, force `2`) and `b`
(at rest, force `0`) both enter with `hp = 10` — appends no log record at all:
`create_log` is only called when at least one particle died
(`src/utils/helpers.py` line 243), refuting "every resolved collision, lethal
or not, produces log records". -/
theorem collision_log_counterexample :
    (resolve_collision 1 0 ⟨0, (0, 0), (1, 0), 10, true, 1⟩
        ⟨1, (1, 0), (0, 0), 10, true, 1⟩ 1 2 0 ⟨[], []⟩).entries = [] ∧
    (resolve_collision 1 0 ⟨0, (0, 0), (1, 0), 10, true, 1⟩
        ⟨1, (1, 0), (0, 0), 10, true, 1⟩ 1 2 0 ⟨[], []⟩).a.alive = true ∧
    (resolve_collision 1 0 ⟨0, (0, 0), (1, 0), 10, true, 1⟩
        ⟨1, (1, 0), (0, 0), 10, true, 1⟩ 1 2 0 ⟨[], []⟩).b.alive = true ∧
    (1 : ℚ) < 1 * 2 := by
  norm_num [resolve_collision, Particle.damage, collision_direction, vdot,
    new_v1, new_v2, create_log]

/-- C8 (amended): a resolved collision appends the two per-collision log
records `{Particle, Opponent, Frame, Killed}` — one for each participant —
exactly when at least one participant is non-alive after the resolution, and
appends no record when both survive. -/
theorem resolve_collision_log_records (radius : ℚ) (frame : ℕ) (a b : Particle)
    (dist force_a force_b : ℚ) (ls : LogState) :
    ((resolve_collision radius frame a b dist force_a force_b ls).a.alive = false ∨
        (resolve_collision radius frame a b dist force_a force_b ls).b.alive = false →
      (resolve_collision radius frame a b dist force_a force_b ls).entries =
        [⟨a.id, b.id, frame,
            !(resolve_collision radius frame a b dist force_a force_b ls).a.alive⟩,
          ⟨b.id, a.id, frame,
            !(resolve_collision radius frame a b dist force_a force_b ls).b.alive⟩]) ∧
    ((resolve_collision radius frame a b dist force_a force_b ls).a.alive = true ∧
        (resolve_collision radius frame a b dist force_a force_b ls).b.alive = true →
      (resolve_collision radius frame a b dist force_a force_b ls).entries = []) := by
  constructor
  · intro hc
    show (if (resolve_collision radius frame a b dist force_a force_b ls).a.alive = false ∨
            (resolve_collision radius frame a b dist force_a force_b ls).b.alive = false
          then create_log (resolve_collision radius frame a b dist force_a force_b ls).a
            (resolve_collision radius frame a b dist force_a force_b ls).b frame ls
          else (ls, [])).2 = _
    rw [if_pos hc]
    rfl
  · intro hc
    show (if (resolve_collision radius frame a b dist force_a force_b ls).a.alive = false ∨
            (resolve_collision radius frame a b dist force_a force_b ls).b.alive = false
          then create_log (resolve_collision radius frame a b dist force_a force_b ls).a
            (resolve_collision radius frame a b dist force_a force_b ls).b frame ls
          else (ls, [])).2 = _
    rw [if_neg]
    simp [hc.1, hc.2]

/-- Witness for the amended C8 at a concrete lethal collision (the tied pair
of the C1 analysis in which only `b` dies): the two log records are emitted. -/
theorem resolve_collision_log_records_witness :
    ((resolve_collision 1 0 ⟨0, (0, 0), (10, 0), 5, true, 1⟩
        ⟨1, (1, 0), (0, 0), 5, true, 1⟩ 1 20 0 ⟨[], []⟩).a.alive = false ∨
      (resolve_collision 1 0 ⟨0, (0, 0), (10, 0), 5, true, 1⟩
        ⟨1, (1, 0), (0, 0), 5, true, 1⟩ 1 20 0 ⟨[], []⟩).b.alive = false) ∧
    (resolve_collision 1 0 ⟨0, (0, 0), (10, 0), 5, true, 1⟩
        ⟨1, (1, 0), (0, 0), 5, true, 1⟩ 1 20 0 ⟨[], []⟩).entries =
      [⟨0, 1, 0, !(resolve_collision 1 0 ⟨0, (0, 0), (10, 0), 5, true, 1⟩
          ⟨1, (1, 0), (0, 0), 5, true, 1⟩ 1 20 0 ⟨[], []⟩).a.alive⟩,
        ⟨1, 0, 0, !(resolve_collision 1 0 ⟨0, (0, 0), (10, 0), 5, true, 1⟩
          ⟨1, (1, 0), (0, 0), 5, true, 1⟩ 1 20 0 ⟨[], []⟩).b.alive⟩] :=
  ⟨Or.inr (by norm_num [resolve_collision, Particle.damage, collision_direction,
      vdot, new_v1, new_v2, create_log]),
    (resolve_collision_log_records 1 0 ⟨0, (0, 0), (10, 0), 5, true, 1⟩
        ⟨1, (1, 0), (0, 0), 5, true, 1⟩ 1 20 0 ⟨[], []⟩).1
      (Or.inr (by norm_num [resolve_collision, Particle.damage,
        collision_direction, vdot, new_v1, new_v2, create_log]))⟩

/-- C6 counterexample: two consecutive `create_log` calls, each recording a
simultaneous double death (both particles dead and previously unranked),
leave the kill feed at length 2, exceeding the 1-entry cap: each call appends
two events but pops at most one. -/
theorem kill_feed_counterexample :
    ((create_log ⟨2, (0, 0), (0, 0), 0, false, 1⟩ ⟨3, (0, 0), (0, 0), 0, false, 1⟩ 1
        (create_log ⟨0, (0, 0), (0, 0), 0, false, 1⟩ ⟨1, (0, 0), (0, 0), 0, false, 1⟩ 0
          ⟨[], []⟩).1).1).kill_feed.length = 2 := by
  norm_num [create_log]

/-- C6 (amended): a `create_log` call evicts at most one entry, always the
oldest; when the call records at most one new elimination (at least one of
the two particles is still alive) and the kill feed held at most one entry
before the call, it holds at most one entry after it.  A call recording two
simultaneous eliminations can exceed the 1-entry cap. -/
theorem kill_feed_bounded (a b : Particle) (frame : ℕ) (ls : LogState)
    (h1 : ls.kill_feed.length ≤ 1) (h2 : a.alive = true ∨ b.alive = true) :
    (create_log a b frame ls).1.kill_feed.length ≤ 1 ∧
    ∃ es : List (ℕ × ℕ), (create_log a b frame ls).1.kill_feed <:+ ls.kill_feed ++ es := by
  unfold create_log
  rcases h2 with h | h <;>
    simp only [h, Bool.not_true, Bool.false_eq_true, false_and, if_false] <;>
    split_ifs with c1 c2 c3
  · refine ⟨?_, ⟨[(a.id, b.id)], List.tail_suffix _⟩⟩
    simp only [List.length_tail, List.length_append, List.length_cons, List.length_nil]
    omega
  · refine ⟨?_, ⟨[(a.id, b.id)], List.suffix_rfl⟩⟩
    simp only [List.length_append, List.length_cons, List.length_nil] at c2 ⊢
    omega
  · exact absurd c3 (by omega)
  · exact ⟨h1, ⟨[], by simp⟩⟩
  · refine ⟨?_, ⟨[(b.id, a.id)], List.tail_suffix _⟩⟩
    simp only [List.length_tail, List.length_append, List.length_cons, List.length_nil]
    omega
  · refine ⟨?_, ⟨[(b.id, a.id)], List.suffix_rfl⟩⟩
    simp only [List.length_append, List.length_cons, List.length_nil] at c2 ⊢
    omega
  · exact absurd c3 (by omega)
  · exact ⟨h1, ⟨[], by simp⟩⟩

/-- Witness for the amended C6: a call with one dead and one alive particle
on a feed already holding one entry keeps the feed at one entry. -/
theorem kill_feed_bounded_witness :
    (([(7, 8)] : List (ℕ × ℕ)).length ≤ 1 ∧
      ((⟨0, (0, 0), (0, 0), 0, false, 1⟩ : Particle).alive = true ∨
        (⟨1, (0, 0), (0, 0), 5, true, 1⟩ : Particle).alive = true)) ∧
    (create_log ⟨0, (0, 0), (0, 0), 0, false, 1⟩ ⟨1, (0, 0), (0, 0), 5, true, 1⟩ 0
        ⟨[], [(7, 8)]⟩).1.kill_feed.length ≤ 1 ∧
    ∃ es : List (ℕ × ℕ),
      (create_log ⟨0, (0, 0), (0, 0), 0, false, 1⟩ ⟨1, (0, 0), (0, 0), 5, true, 1⟩ 0
        ⟨[], [(7, 8)]⟩).1.kill_feed <:+ [(7, 8)] ++ es :=
  ⟨⟨by norm_num, Or.inr rfl⟩,
    kill_feed_bounded ⟨0, (0, 0), (0, 0), 0, false, 1⟩ ⟨1, (0, 0), (0, 0), 5, true, 1⟩ 0
      ⟨[], [(7, 8)]⟩ (by norm_num) (Or.inr rfl)⟩

/-- Appending a fresh element keeps a list duplicate-free. -/
theorem nodup_append_singleton {l : List ℕ} {x : ℕ} (hl : l.Nodup) (hx : x ∉ l) :
    (l ++ [x]).Nodup := by
  simp [List.nodup_append, hl, hx]

/-- Every single ranking-touching call preserves duplicate-freedom of the
ranking: both `create_log` and `display_winner` append an agent only after a
membership test. -/
theorem applyLogOp_nodup (op : LogOp) (s : LogState) (h : s.ranking.Nodup) :
    (applyLogOp s op).ranking.Nodup := by
  cases op with
  | collide a b frame =>
    show ((create_log a b frame s).1.ranking).Nodup
    unfold create_log
    dsimp only
    split_ifs with c1 c2 c3
    all_goals
      first
        | exact nodup_append_singleton (nodup_append_singleton h c1.2) c2.2
        | exact nodup_append_singleton h c1.2
        | (rename_i hb hpop; exact nodup_append_singleton h hb.2)
        | exact h
  | winner ps =>
    show (display_winner ps s.ranking).Nodup
    unfold display_winner
    cases hf : ps.find? (fun p => p.alive) with
    | none => simp only [hf]; exact h
    | some w =>
      simp only [hf]
      split_ifs with hw
      · exact h
      · exact nodup_append_singleton h hw

/-- C7: across any sequence of `create_log` and `display_winner` calls
starting from the program's empty global state, an agent already present in
the ranking is never appended again, so the ranking stays duplicate-free. -/
theorem ranking_nodup (ops : List LogOp) :
    ((runLogOps ops ⟨[], []⟩).ranking).Nodup := by
  have gen : ∀ (l : List LogOp) (s : LogState), s.ranking.Nodup →
      ((runLogOps l s).ranking).Nodup := by
    intro l
    induction l with
    | nil => intro s h; exact h
    | cons op rest ih => intro s h; exact ih _ (applyLogOp_nodup op s h)
  exact gen ops ⟨[], []⟩ List.nodup_nil

/-- Floor of a quotient of a value in `[0, w)` by a positive cell size lies
in `[0, w / c]`, hence strictly below the grid extent `w / c + 1` used by the
simulation loop. -/
theorem floor_div_nonneg_lt {x : ℚ} {w c : ℕ} (hc : 0 < c) (hx0 : 0 ≤ x)
    (hxw : x < (w : ℚ)) :
    0 ≤ ⌊x / (c : ℚ)⌋ ∧ ⌊x / (c : ℚ)⌋ < ((w / c : ℕ) : ℤ) + 1 := by
  have hcq : (0 : ℚ) < (c : ℚ) := by exact_mod_cast hc
  constructor
  · exact Int.floor_nonneg.mpr (div_nonneg hx0 hcq.le)
  · have h1 : x / (c : ℚ) ≤ (w : ℚ) / (c : ℚ) := (div_le_div_iff_of_pos_right hcq).mpr hxw.le
    have h2 : ⌊x / (c : ℚ)⌋ ≤ ⌊(w : ℚ) / (c : ℚ)⌋ := Int.floor_le_floor h1
    have h3 : ⌊(w : ℚ) / (c : ℚ)⌋ = (w : ℤ) / (c : ℤ) := Rat.floor_natCast_div_natCast w c
    have h4 : ((w / c : ℕ) : ℤ) = (w : ℤ) / (c : ℤ) := Int.natCast_div w c
    omega

/-- Two points whose difference is below the cell size land in cells whose
indices differ by at most one (one direction; apply twice for both sides). -/
theorem floor_le_floor_add_one {u v c : ℚ} (hc : 0 < c) (huv : u - v < c) :
    ⌊u / c⌋ ≤ ⌊v / c⌋ + 1 := by
  have h1 : u / c < (v + c) / c := (div_lt_div_iff_of_pos_right hc).mpr (by linarith)
  have h2 : (v + c) / c = v / c + 1 := by field_simp
  have h3 : u / c < ((⌊v / c⌋ + 2 : ℤ) : ℚ) := by
    have h4 := Int.lt_floor_add_one (v / c)
    push_cast
    linarith
  have h5 := Int.floor_lt.mpr h3
  omega

/-- C5: broad-phase completeness with `cell_size = 2 * radius`.  For any two
points inside the arena whose squared distance is below `(2 * radius)^2`
(i.e. the pair truly collides), the home cell of the first point is a valid
grid cell of the `width // cell + 1` by `height // cell + 1` grid, and the
cell of the second point is among the bounds-filtered 3×3 neighbor cells
scanned from that home cell — so the pair is examined at least once. -/
theorem broad_phase_complete (radius width height : ℕ) (hr : 0 < radius)
    (pa pb : ℚ × ℚ)
    (ha1 : 0 ≤ pa.1) (ha2 : pa.1 < (width : ℚ))
    (ha3 : 0 ≤ pa.2) (ha4 : pa.2 < (height : ℚ))
    (hb1 : 0 ≤ pb.1) (hb2 : pb.1 < (width : ℚ))
    (hb3 : 0 ≤ pb.2) (hb4 : pb.2 < (height : ℚ))
    (hdist : (pa.1 - pb.1) ^ 2 + (pa.2 - pb.2) ^ 2 < ((2 * radius : ℕ) : ℚ) ^ 2) :
    (0 ≤ (get_cell_coords pa ((2 * radius : ℕ) : ℚ)).1 ∧
      (get_cell_coords pa ((2 * radius : ℕ) : ℚ)).1 < ((width / (2 * radius) + 1 : ℕ) : ℤ) ∧
      0 ≤ (get_cell_coords pa ((2 * radius : ℕ) : ℚ)).2 ∧
      (get_cell_coords pa ((2 * radius : ℕ) : ℚ)).2 < ((height / (2 * radius) + 1 : ℕ) : ℤ)) ∧
    get_cell_coords pb ((2 * radius : ℕ) : ℚ) ∈
      scannedCells (get_cell_coords pa ((2 * radius : ℕ) : ℚ)).1
        (get_cell_coords pa ((2 * radius : ℕ) : ℚ)).2
        (width / (2 * radius) + 1) (height / (2 * radius) + 1) := by
  have hc : 0 < 2 * radius := by omega
  have hcq : (0 : ℚ) < ((2 * radius : ℕ) : ℚ) := by exact_mod_cast hc
  have hA1 := floor_div_nonneg_lt hc ha1 ha2
  have hA2 := floor_div_nonneg_lt hc ha3 ha4
  have hB1 := floor_div_nonneg_lt hc hb1 hb2
  have hB2 := floor_div_nonneg_lt hc hb3 hb4
  have hd1 : pa.1 - pb.1 < ((2 * radius : ℕ) : ℚ) := by
    nlinarith [sq_nonneg (pa.2 - pb.2), sq_nonneg (pa.1 - pb.1)]
  have hd2 : pb.1 - pa.1 < ((2 * radius : ℕ) : ℚ) := by
    nlinarith [sq_nonneg (pa.2 - pb.2), sq_nonneg (pa.1 - pb.1)]
  have hd3 : pa.2 - pb.2 < ((2 * radius : ℕ) : ℚ) := by
    nlinarith [sq_nonneg (pa.2 - pb.2), sq_nonneg (pa.1 - pb.1)]
  have hd4 : pb.2 - pa.2 < ((2 * radius : ℕ) : ℚ) := by
    nlinarith [sq_nonneg (pa.2 - pb.2), sq_nonneg (pa.1 - pb.1)]
  have e1 := floor_le_floor_add_one hcq hd1
  have e2 := floor_le_floor_add_one hcq hd2
  have e3 := floor_le_floor_add_one hcq hd3
  have e4 := floor_le_floor_add_one hcq hd4
  refine ⟨⟨hA1.1, ?_, hA2.1, ?_⟩, ?_⟩
  · simp only [Nat.cast_add, Nat.cast_one]
    exact hA1.2
  · simp only [Nat.cast_add, Nat.cast_one]
    exact hA2.2
  · refine List.mem_filterMap.mpr
      ⟨(⌊pb.1 / ((2 * radius : ℕ) : ℚ)⌋ - ⌊pa.1 / ((2 * radius : ℕ) : ℚ)⌋,
        ⌊pb.2 / ((2 * radius : ℕ) : ℚ)⌋ - ⌊pa.2 / ((2 * radius : ℕ) : ℚ)⌋), ?_, ?_⟩
    · have hx : ⌊pb.1 / ((2 * radius : ℕ) : ℚ)⌋ - ⌊pa.1 / ((2 * radius : ℕ) : ℚ)⌋ = -1 ∨
          ⌊pb.1 / ((2 * radius : ℕ) : ℚ)⌋ - ⌊pa.1 / ((2 * radius : ℕ) : ℚ)⌋ = 0 ∨
          ⌊pb.1 / ((2 * radius : ℕ) : ℚ)⌋ - ⌊pa.1 / ((2 * radius : ℕ) : ℚ)⌋ = 1 := by omega
      have hy : ⌊pb.2 / ((2 * radius : ℕ) : ℚ)⌋ - ⌊pa.2 / ((2 * radius : ℕ) : ℚ)⌋ = -1 ∨
          ⌊pb.2 / ((2 * radius : ℕ) : ℚ)⌋ - ⌊pa.2 / ((2 * radius : ℕ) : ℚ)⌋ = 0 ∨
          ⌊pb.2 / ((2 * radius : ℕ) : ℚ)⌋ - ⌊pa.2 / ((2 * radius : ℕ) : ℚ)⌋ = 1 := by omega
      rcases hx with h | h | h <;> rcases hy with g | g | g <;>
        · rw [h, g]
          decide
    · have r1 : (get_cell_coords pa ((2 * radius : ℕ) : ℚ)).1 +
          (⌊pb.1 / ((2 * radius : ℕ) : ℚ)⌋ - ⌊pa.1 / ((2 * radius : ℕ) : ℚ)⌋) =
            ⌊pb.1 / ((2 * radius : ℕ) : ℚ)⌋ := by
        dsimp only [get_cell_coords]
        ring
      have r2 : (get_cell_coords pa ((2 * radius : ℕ) : ℚ)).2 +
          (⌊pb.2 / ((2 * radius : ℕ) : ℚ)⌋ - ⌊pa.2 / ((2 * radius : ℕ) : ℚ)⌋) =
            ⌊pb.2 / ((2 * radius : ℕ) : ℚ)⌋ := by
        dsimp only [get_cell_coords]
        ring
      have hcond : 0 ≤ ⌊pb.1 / ((2 * radius : ℕ) : ℚ)⌋ ∧
          ⌊pb.1 / ((2 * radius : ℕ) : ℚ)⌋ < ((width / (2 * radius) + 1 : ℕ) : ℤ) ∧
          0 ≤ ⌊pb.2 / ((2 * radius : ℕ) : ℚ)⌋ ∧
          ⌊pb.2 / ((2 * radius : ℕ) : ℚ)⌋ < ((height / (2 * radius) + 1 : ℕ) : ℤ) := by
        refine ⟨hB1.1, ?_, hB2.1, ?_⟩
        · simp only [Nat.cast_add, Nat.cast_one]
          exact hB1.2
        · simp only [Nat.cast_add, Nat.cast_one]
          exact hB2.2
      dsimp only
      rw [r1, r2, if_pos hcond]
      rfl

/-- Witness for C5: radius 5 in a 100×80 arena; points `(0, 0)` and `(9, 0)`
are inside the arena at squared distance `81 < 100 = (2*5)^2`. -/
theorem broad_phase_complete_witness :
    (0 < 5 ∧ (0 : ℚ) ≤ 0 ∧ (0 : ℚ) < 100 ∧ (9 : ℚ) < 100 ∧
      ((0 : ℚ) - 9) ^ 2 + ((0 : ℚ) - 0) ^ 2 < ((2 * 5 : ℕ) : ℚ) ^ 2) ∧
    get_cell_coords ((9 : ℚ), (0 : ℚ)) ((2 * 5 : ℕ) : ℚ) ∈
      scannedCells (get_cell_coords ((0 : ℚ), (0 : ℚ)) ((2 * 5 : ℕ) : ℚ)).1
        (get_cell_coords ((0 : ℚ), (0 : ℚ)) ((2 * 5 : ℕ) : ℚ)).2
        (100 / (2 * 5) + 1) (80 / (2 * 5) + 1) :=
  ⟨⟨by norm_num, by norm_num, by norm_num, by norm_num, by norm_num⟩,
    (broad_phase_complete 5 100 80 (by norm_num) ((0 : ℚ), (0 : ℚ)) ((9 : ℚ), (0 : ℚ))
      (by norm_num) (by norm_num) (by norm_num) (by norm_num)
      (by norm_num) (by norm_num) (by norm_num) (by norm_num) (by norm_num)).2⟩

/-- A narrow-phase step writes back only the two particles it was given. -/
theorem pairStep_agents_of_ne (normF : ℚ × ℚ → ℚ) (radius : ℚ) (frame : ℕ)
    (aIdx bIdx k : ℕ) (s : SimState) (hka : k ≠ aIdx) (hkb : k ≠ bIdx) :
    (pairStep normF radius frame aIdx bIdx s).agents k = s.agents k := by
  unfold pairStep
  dsimp only
  split
  · show Function.update (Function.update s.agents aIdx _) bIdx _ k = s.agents k
    rw [Function.update_noteq hkb, Function.update_noteq hka]
  · rfl

/-- Inner b-loop: a particle that is dead entering the loop is never written
again — dead candidates are skipped and a dead home particle breaks the
loop. -/
theorem processBs_frozen (normF : ℚ × ℚ → ℚ) (radius : ℚ) (frame : ℕ)
    (aIdx : ℕ) : ∀ (bs : List ℕ) (s : SimState) (k : ℕ),
    (s.agents k).alive = false →
    (processBs normF radius frame aIdx bs s).agents k = s.agents k := by
  intro bs
  induction bs with
  | nil => intro s k _; rfl
  | cons b rest ih =>
    intro s k h
    simp only [processBs]
    split_ifs with c1 c2
    · exact ih s k h
    · rfl
    · push_neg at c1
      have hkb : k ≠ b := by
        intro e
        exact c1.2 (e ▸ h)
      have hka : k ≠ aIdx := by
        intro e
        exact c2 (e ▸ h)
      have hstep := pairStep_agents_of_ne normF radius frame aIdx b k s hka hkb
      rw [ih _ k (by rw [hstep]; exact h), hstep]

/-- Neighbor-cell loop preserves dead particles untouched. -/
theorem processNeighbors_frozen (normF : ℚ × ℚ → ℚ) (radius : ℚ) (frame : ℕ)
    (grid : ℤ × ℤ → List ℕ) (aIdx : ℕ) : ∀ (cells : List (ℤ × ℤ)) (s : SimState) (k : ℕ),
    (s.agents k).alive = false →
    (processNeighbors normF radius frame grid aIdx cells s).agents k = s.agents k := by
  intro cells
  induction cells with
  | nil => intro s k _; rfl
  | cons c cs ih =>
    intro s k h
    simp only [processNeighbors]
    have h1 := processBs_frozen normF radius frame aIdx (grid c) s k h
    rw [ih _ k (by rw [h1]; exact h), h1]

/-- Home-cell particle loop preserves dead particles untouched. -/
theorem processAs_frozen (normF : ℚ × ℚ → ℚ) (radius : ℚ) (frame : ℕ)
    (grid : ℤ × ℤ → List ℕ) (grid_width grid_height : ℕ) (home : ℤ × ℤ) :
    ∀ (aList : List ℕ) (s : SimState) (k : ℕ),
    (s.agents k).alive = false →
    (processAs normF radius frame grid grid_width grid_height home aList s).agents k
      = s.agents k := by
  intro aList
  induction aList with
  | nil => intro s k _; rfl
  | cons aIdx rest ih =>
    intro s k h
    simp only [processAs]
    have h1 := processNeighbors_frozen normF radius frame grid aIdx
      (scannedCells home.1 home.2 grid_width grid_height) s k h
    rw [ih _ k (by rw [h1]; exact h), h1]

/-- Outer cell loop preserves dead particles untouched. -/
theorem processCells_frozen (normF : ℚ × ℚ → ℚ) (radius : ℚ) (frame : ℕ)
    (grid : ℤ × ℤ → List ℕ) (grid_width grid_height : ℕ) :
    ∀ (cells : List (ℤ × ℤ)) (s : SimState) (k : ℕ),
    (s.agents k).alive = false →
    (processCells normF radius frame grid grid_width grid_height cells s).agents k
      = s.agents k := by
  intro cells
  induction cells with
  | nil => intro s k _; rfl
  | cons c cs ih =>
    intro s k h
    simp only [processCells]
    have h1 := processAs_frozen normF radius frame grid grid_width grid_height c
      (grid c) s k h
    rw [ih _ k (by rw [h1]; exact h), h1]

/-- C10 counterexample: within the very pair resolution in which particle `a`
(hp 5, velocity `(10, 0)`, force 20) is killed by `b` (hp 9, velocity
`(-3, 0)`, force 6), `a`'s velocity is still modified after its alive flag
became false.  The first two conjuncts exhibit `a`'s exact state right after
the damage sub-step of the source (position already pushed to `(-1/10, 0)` by
the repel sub-step, dead, velocity still `(10, 0)`); the last conjunct shows
the pair resolution returns exactly that dead particle with only its velocity
rewritten to `(-3, 0)` by the later momentum sub-step. -/
theorem dead_velocity_counterexample :
    (Particle.damage ⟨0, (-1/10, 0), (10, 0), 5, true, 1⟩ (min 6 (min 5 9))).alive
        = false ∧
    (Particle.damage ⟨0, (-1/10, 0), (10, 0), 5, true, 1⟩ (min 6 (min 5 9))).vel
        = (10, 0) ∧
    (resolve_collision 1 0 ⟨0, (0, 0), (10, 0), 5, true, 1⟩
        ⟨1, (1, 0), (-3, 0), 9, true, 1⟩ 1 20 6 ⟨[], []⟩).a =
      { Particle.damage ⟨0, (-1/10, 0), (10, 0), 5, true, 1⟩ (min 6 (min 5 9)) with
          vel := (-3, 0) } := by
  norm_num [resolve_collision, Particle.damage, collision_direction, vdot,
    new_v1, new_v2, create_log, Particle.mk.injEq, Prod.ext_iff]

/-- C10 (amended): from any point of a `check_collisions` pass at which a
particle's alive flag is false, every remaining loop level skips every
candidate pair containing it, so the rest of the pass (remaining candidates of
the current cell, remaining neighbor cells, remaining home particles,
remaining grid cells, or a whole pass) leaves its hp, position and velocity
unchanged.  Only the momentum sub-step inside the single pair resolution in
which the particle dies may still touch its velocity. -/
theorem check_collisions_dead_frozen (normF : ℚ × ℚ → ℚ) (radius cell_size : ℚ)
    (frame : ℕ) (grid : ℤ × ℤ → List ℕ) (grid_width grid_height : ℕ)
    (idxs : List ℕ) (s : SimState) (k : ℕ)
    (hdead : (s.agents k).alive = false) :
    (∀ (aIdx : ℕ) (bs : List ℕ),
      (processBs normF radius frame aIdx bs s).agents k = s.agents k) ∧
    (∀ (aIdx : ℕ) (cells : List (ℤ × ℤ)),
      (processNeighbors normF radius frame grid aIdx cells s).agents k = s.agents k) ∧
    (∀ (home : ℤ × ℤ) (aList : List ℕ),
      (processAs normF radius frame grid grid_width grid_height home aList s).agents k
        = s.agents k) ∧
    (∀ (cells : List (ℤ × ℤ)),
      (processCells normF radius frame grid grid_width grid_height cells s).agents k
        = s.agents k) ∧
    (check_collisions normF radius cell_size grid_width grid_height idxs frame s).agents k
        = s.agents k := by
  refine ⟨?_, ?_, ?_, ?_, ?_⟩
  · intro aIdx bs
    exact processBs_frozen normF radius frame aIdx bs s k hdead
  · intro aIdx cells
    exact processNeighbors_frozen normF radius frame grid aIdx cells s k hdead
  · intro home aList
    exact processAs_frozen normF radius frame grid grid_width grid_height home aList s k hdead
  · intro cells
    exact processCells_frozen normF radius frame grid grid_width grid_height cells s k hdead
  · exact processCells_frozen normF radius frame _ grid_width grid_height _ s k hdead

/-- Witness for the amended C10: a two-particle roster in which particle 0 is
dead; the whole pass (and every loop suffix) leaves it untouched.  The norm
function is the taxicab norm, which agrees with the Euclidean norm on the
axis-aligned data involved. -/
theorem check_collisions_dead_frozen_witness :
    ((fun i => if i = 0 then (⟨0, (0, 0), (0, 0), 0, false, 1⟩ : Particle)
        else ⟨1, (1, 0), (2, 0), 7, true, 1⟩) 0).alive = false ∧
    (check_collisions (fun v => |v.1| + |v.2|) 1 2 3 3 [0, 1] 0
        ⟨fun i => if i = 0 then ⟨0, (0, 0), (0, 0), 0, false, 1⟩
            else ⟨1, (1, 0), (2, 0), 7, true, 1⟩, ⟨[], []⟩, []⟩).agents 0 =
      (fun i => if i = 0 then (⟨0, (0, 0), (0, 0), 0, false, 1⟩ : Particle)
        else ⟨1, (1, 0), (2, 0), 7, true, 1⟩) 0 :=
  ⟨rfl,
    (check_collisions_dead_frozen (fun v => |v.1| + |v.2|) 1 2 0
      (buildGrid 2 (fun i => if i = 0 then ⟨0, (0, 0), (0, 0), 0, false, 1⟩
        else ⟨1, (1, 0), (2, 0), 7, true, 1⟩) [0, 1]) 3 3 [0, 1]
      ⟨fun i => if i = 0 then ⟨0, (0, 0), (0, 0), 0, false, 1⟩
          else ⟨1, (1, 0), (2, 0), 7, true, 1⟩, ⟨[], []⟩, []⟩ 0 rfl).2.2.2.2⟩

end Sorteo
